import Mathlib

/-!
Shallow embedding of the shape-frontend core: the WebSocket session controller
(`src/src/lib/useShapeSocket.ts`), the dashboard orchestration
(`DashboardPage`, src/unnamed/part_002), and the mesh render engine
(`src/src/components/MeshViewer.tsx` with `meshConstants`).

Strings play the role of the TypeScript string literals; JavaScript object
references are modelled by identity tokens where only reference identity
matters. Record lookups that can miss are `Option`; JS truthiness checks are
made explicit. A ghost `sent` log records every `ws.send` call so that
temporal claims about outbound commands can be stated.
-/

namespace ShapeFrontend

/-- RGB color triple (0 to 255 per channel), the `[number, number, number]`
tuples of `meshConstants.ts`. -/
structure Color where
  r : Nat
  g : Nat
  b : Nat
deriving DecidableEq, Repr

/-- The fixed segment-type to color table `SEGMENT_COLORS` from
`meshConstants.ts`. A `Record<string, [n,n,n]>` lookup misses on unknown
keys, hence `Option`. -/
def SEGMENT_COLORS : String → Option Color
  | "straight" => some ⟨90, 178, 242⟩
  | "arc" => some ⟨242, 140, 90⟩
  | "junction" => some ⟨110, 210, 110⟩
  | "corner" => some ⟨230, 100, 140⟩
  | _ => none

/-- `DEFAULT_MESH_COLOR` from `meshConstants.ts`. -/
def DEFAULT_MESH_COLOR : Color := ⟨200, 200, 210⟩

/-- `HIGHLIGHT_COLOR` from `meshConstants.ts`. -/
def HIGHLIGHT_COLOR : Color := ⟨255, 230, 80⟩

/-- The fields of the `Segment` interface (api.ts) used by the render engine
and the controller: `segment_id`, `type`, and the optional `face_ids`.
The purely numeric geometry fields (lengths, angles, embeddings, downsampled
polyline) are not consulted by any embedded operation and are omitted. -/
structure Segment where
  segment_id : Int
  type : String
  face_ids : Option (List Nat)
deriving DecidableEq, Repr

/-- The color chosen for one segment in the MeshViewer render effect:
`highlightIds.includes(seg.segment_id) ? HIGHLIGHT_COLOR :
(SEGMENT_COLORS[seg.type] || DEFAULT_MESH_COLOR)`. -/
def segColor (highlightIds : List Int) (seg : Segment) : Color :=
  if seg.segment_id ∈ highlightIds then HIGHLIGHT_COLOR
  else (SEGMENT_COLORS seg.type).getD DEFAULT_MESH_COLOR

/-- One write of the face-coloring inner loop of MeshViewer
(`if (faceIdx < numFaces) faceColors[faceIdx*3 ..] = color`): the face color
buffer is modelled as a total function from face index to color, and the
guarded write updates one entry. -/
def writeFace (numFaces : Nat) (color : Color) (colors : Nat → Color) (faceIdx : Nat) : Nat → Color :=
  if faceIdx < numFaces then (fun i => if i = faceIdx then color else colors i) else colors

/-- The per-segment pass of the MeshViewer face coloring loop: compute the
segment color, then, if `seg.face_ids` is present and nonempty, write that
color at every listed face index (in-bounds indices only). -/
def applySegment (numFaces : Nat) (highlightIds : List Int) (colors : Nat → Color) (seg : Segment) : Nat → Color :=
  match seg.face_ids with
  | some fids =>
      if fids.length > 0 then fids.foldl (writeFace numFaces (segColor highlightIds seg)) colors
      else colors
  | none => colors

/-- The full face color buffer construction of the MeshViewer render effect:
initialize every face to `DEFAULT_MESH_COLOR`, then process the segments in
result order. -/
def buildFaceColors (numFaces : Nat) (highlightIds : List Int) (segments : List Segment) : Nat → Color :=
  segments.foldl (applySegment numFaces highlightIds) (fun _ => DEFAULT_MESH_COLOR)

/-- Face colors as produced for a possibly absent segmentation result
(`if (segmentResult?.segments) ...` in the render effect): with no result the
buffer keeps the default initialization. -/
def renderFaceColors (numFaces : Nat) (highlightIds : List Int) (segments : Option (List Segment)) : Nat → Color :=
  match segments with
  | some segs => buildFaceColors numFaces highlightIds segs
  | none => fun _ => DEFAULT_MESH_COLOR

/-- A face index is covered by a segment when it occurs in the face id set of
that segment (absent `face_ids` covers nothing). Specification-side
predicate used to state the coloring theorems. -/
def coversFace (seg : Segment) (faceIdx : Nat) : Prop :=
  faceIdx ∈ seg.face_ids.getD []

instance (seg : Segment) (faceIdx : Nat) : Decidable (coversFace seg faceIdx) := by
  unfold coversFace
  infer_instance

/-- The two result payload shapes carried by a `result` message (api.ts):
`SegmentResult` (a segment list; the summary object is not consulted by any
embedded operation) or `QueryResult` (answer text plus highlight ids; the
`query`, `tool_calls` and `mode` fields are not consulted). The JS structural
test `"answer" in data` distinguishes them, since only `QueryResult` declares
an `answer` field. -/
inductive ResultData where
  | segRes (segments : List Segment)
  | queryRes (answer : String) (highlight_ids : List Int)
deriving DecidableEq, Repr

/-- The JS membership test `"answer" in data` on a result payload. -/
def hasAnswerField : ResultData → Bool
  | .segRes _ => false
  | .queryRes _ _ => true

/-- The `expectingRef` values: `"segment" | "query" | null` (modelled with
`Option Expecting`). -/
inductive Expecting where
  | segment
  | query
deriving DecidableEq, Repr

/-- The fields of a `progress` message `detail` map that the controller
consults. The map is free-form (`Record<string, unknown>`); each consulted
key may be absent. -/
structure Detail where
  status : Option String := none
  total_segments : Option Nat := none
  segments_processed : Option Nat := none
  segments_embedded : Option Nat := none
  tool : Option String := none
deriving DecidableEq, Repr

/-- One `ProgressEntry` of useShapeSocket.ts: step, detail, optional
explanation, and the `Date.now()` capture timestamp. -/
structure ProgressEntry where
  step : String
  detail : Detail
  explanation : Option String
  timestamp : Nat
deriving DecidableEq, Repr

/-- Outbound WebSocket commands serialized by `ws.send` in useShapeSocket.ts. -/
inductive OutMsg where
  | uploadAndSegment (target_step : ℚ) (downsample_nodes : Nat) (embed : Bool)
  | query (q : String)
deriving DecidableEq, Repr

/-- The decoded inbound message union `WsIncoming` of api.ts, plus the
`default` branch of the switch for unknown message types. -/
inductive WsIncoming where
  | connected (session_id : String)
  | progress (step : String) (detail : Detail) (explanation : Option String)
  | result (data : ResultData)
  | error (message : String)
  | other (t : String)
deriving DecidableEq, Repr

/-- A raw frame handed to `ws.onmessage`: either JSON that fails to parse, or
a decoded message. -/
inductive RawMsg where
  | malformed
  | valid (msg : WsIncoming)
deriving DecidableEq, Repr

/-- The state owned by the `useShapeSocket` hook. `wsPresent` models
`wsRef.current !== null`; `readyState` models
`wsRef.current.readyState === WebSocket.OPEN`. `sent` is a ghost log of every
command passed to `ws.send`, used only to state theorems about outbound
traffic. -/
structure SocketState where
  wsPresent : Bool
  readyState : Bool
  isConnected : Bool
  phase : String
  progressLog : List ProgressEntry
  progressText : String
  segmentResult : Option ResultData
  queryResult : Option ResultData
  queryResultVersion : Nat
  error : Option String
  expecting : Option Expecting
  sent : List OutMsg
deriving DecidableEq, Repr

/-- The initial hook state: `useState("idle")` and friends, `wsRef` null,
`expectingRef` null. -/
def initialSocket : SocketState where
  wsPresent := false
  readyState := false
  isConnected := false
  phase := "idle"
  progressLog := []
  progressText := ""
  segmentResult := none
  queryResult := none
  queryResultVersion := 0
  error := none
  expecting := none
  sent := []

/-- JS truthiness of an optional string (absent and the empty string are
falsy). -/
def optStrTruthy : Option String → Bool
  | none => false
  | some t => t ≠ ""

/-- JS truthiness of an optional number (absent and 0 are falsy). -/
def optNatTruthy : Option Nat → Bool
  | none => false
  | some n => n ≠ 0

/-- String interpolation of a possibly-undefined JS number (template
literals print `undefined` for a missing field). -/
def jsNumStr : Option Nat → String
  | none => "undefined"
  | some n => toString n

/-- The `msg.step.replace(/_/g, " ")` fallback text. -/
def replaceUnderscores (t : String) : String :=
  t.map (fun c => if c = '_' then ' ' else c)

/-- The `setProgressText` cascade of the `progress` branch of `ws.onmessage`. -/
def progressTextFor (step : String) (detail : Detail) (explanation : Option String) : String :=
  if optStrTruthy explanation then explanation.getD ""
  else if optStrTruthy detail.status then detail.status.getD ""
  else if step = "segmented" ∧ optNatTruthy detail.total_segments then
    "Found " ++ jsNumStr detail.total_segments ++ " segments"
  else if step = "downsampled" then
    "Downsampled " ++ jsNumStr detail.segments_processed ++ " segments"
  else if step = "embedded" then
    "Embedded " ++ jsNumStr detail.segments_embedded ++ " segments"
  else if step = "tool_call" ∧ optStrTruthy detail.tool then
    "Calling " ++ (detail.tool.getD "") ++ "..."
  else replaceUnderscores step

/-- The `ws.onmessage` handler of useShapeSocket.ts. A frame whose
`JSON.parse` throws is logged and dropped (`return`), leaving the state
untouched. The `now` argument supplies `Date.now()` for progress entries.
Note that the phase is stored as the raw step string (`msg.step as
PipelinePhase` is a compile-time cast with no runtime check), and that the
`connected` branch keeps the current phase unless it is `connecting` or
`idle`. -/
def handleMessage (now : Nat) (s : SocketState) (raw : RawMsg) : SocketState :=
  match raw with
  | .malformed => s
  | .valid msg =>
    match msg with
    | .connected _ =>
        { s with phase := if s.phase = "connecting" ∨ s.phase = "idle" then "connected" else s.phase }
    | .progress step detail explanation =>
        { s with
          progressLog := s.progressLog ++ [⟨step, detail, explanation, now⟩]
          phase := step
          progressText := progressTextFor step detail explanation }
    | .result data =>
        if s.expecting = some Expecting.query ∨ hasAnswerField data then
          { s with
            queryResult := some data
            queryResultVersion := s.queryResultVersion + 1
            phase := "query_done"
            progressText := ""
            expecting := none }
        else
          { s with
            segmentResult := some data
            phase := "segment_done"
            progressText := ""
            expecting := none }
    | .error message =>
        { s with error := some message, phase := "error", progressText := "" }
    | .other _ => s

/-- The `ws.onopen` callback together with the browser transition of
`readyState` to OPEN. -/
def handleOpen (s : SocketState) : SocketState :=
  { s with readyState := true, isConnected := true }

/-- The `ws.onclose` callback (plus the browser closing the socket): always
`setIsConnected(false)`; only close code 4001 additionally surfaces the
re-authentication message and moves the phase to error. -/
def handleClose (s : SocketState) (code : Nat) : SocketState :=
  let closed := { s with readyState := false, isConnected := false }
  if code = 4001 then
    { closed with error := some "Authentication failed. Please sign in again.", phase := "error" }
  else closed

/-- The `ws.onerror` callback: generic connectivity message, phase error. -/
def handleError (s : SocketState) : SocketState :=
  { s with
    error := some "WebSocket connection failed."
    phase := "error"
    isConnected := false }

/-- `connect(uid, sessionId)`: close any existing socket, reset phase, error
and progress state, open a fresh socket (CONNECTING, so `readyState` is not
yet OPEN). `segmentResult` and `queryResult` are deliberately not cleared
here (see the comment in the source). -/
def connect (s : SocketState) : SocketState :=
  { s with
    phase := "connecting"
    error := none
    progressLog := []
    progressText := ""
    wsPresent := true
    readyState := false }

/-- `disconnect()`: close and drop the socket, mark disconnected, reset the
phase to idle. It does not touch `expectingRef`. -/
def disconnect (s : SocketState) : SocketState :=
  { s with
    wsPresent := false
    readyState := false
    isConnected := false
    phase := "idle" }

/-- The optional argument object of `triggerSegmentation`. -/
structure SegOpts where
  target_step : Option ℚ := none
  downsample_nodes : Option Nat := none
  embed : Option Bool := none
deriving DecidableEq, Repr

/-- `triggerSegmentation(opts?)`: a no-op warning when the socket is absent
or not OPEN; otherwise set the expectation flag to segment, reset the
progress log, move the phase to segmenting and send the
`upload_and_segment` command with defaulted options. -/
def triggerSegmentation (s : SocketState) (opts : SegOpts) : SocketState :=
  if s.wsPresent ∧ s.readyState then
    { s with
      expecting := some Expecting.segment
      progressLog := []
      progressText := "Starting segmentation..."
      phase := "segmenting"
      sent := s.sent ++ [OutMsg.uploadAndSegment (opts.target_step.getD 1) (opts.downsample_nodes.getD 16) (opts.embed.getD true)] }
  else s

/-- `sendQuery(query)`: a no-op warning when the socket is absent or not
OPEN; otherwise set the expectation flag to query, move the phase to
parsing_query and send the `query` command. -/
def sendQuery (s : SocketState) (q : String) : SocketState :=
  if s.wsPresent ∧ s.readyState then
    { s with
      expecting := some Expecting.query
      progressText := "Understanding your question..."
      phase := "parsing_query"
      sent := s.sent ++ [OutMsg.query q] }
  else s

/-- The names of the closed `PipelinePhase` union of useShapeSocket.ts. -/
def pipelinePhases : List String :=
  ["idle", "connecting", "connected", "segmenting", "segmented",
   "downsampling", "downsampled", "embedding", "embedded", "stored",
   "segment_done", "parsing_query", "tool_call", "query_done", "error"]

/-- The `isProcessing` phase list of DashboardPage. -/
def isProcessing (phase : String) : Bool :=
  ["connecting", "segmenting", "segmented", "downsampling",
   "downsampled", "embedding", "embedded", "stored",
   "parsing_query", "tool_call"].contains phase

/-- The DashboardPage state relevant to session orchestration: the socket
hook state, the active session, the `pendingPromptRef` and the two one-shot
ref flags (`needsSegmentationRef`, `freshSegmentationRef`), and the current
highlight set. `autoQueries` is a ghost log of the query texts passed to
`sendQuery` by the automatic segment_done effect (the chat transcript and
modal state are not consulted by any claim and are omitted). -/
structure DashState where
  sock : SocketState
  activeSession : Option String
  pendingPrompt : Option String
  needsSegmentation : Bool
  freshSegmentation : Bool
  highlightIds : List Int
  autoQueries : List String
deriving DecidableEq, Repr

/-- The initial DashboardPage state. -/
def initialDash : DashState where
  sock := initialSocket
  activeSession := none
  pendingPrompt := none
  needsSegmentation := false
  freshSegmentation := false
  highlightIds := []
  autoQueries := []

/-- The query text chosen by the automatic segment_done effect:
`pendingPromptRef.current?.trim() || "describe this geometry"` (an absent
prompt and a whitespace-only prompt are both falsy after trimming). -/
def promptChoice : Option String → String
  | some p => if p.trim ≠ "" then p.trim else "describe this geometry"
  | none => "describe this geometry"

/-- The segment_done effect of DashboardPage: when the phase is segment_done
with a segment result present and the fresh-segmentation one-shot flag set,
clear the flag, take the trimmed pending prompt (falling back on
"describe this geometry" when absent or blank), clear the pending prompt and
send the query. The query text is also recorded in the ghost `autoQueries`
log. -/
def effAutoQuery (d : DashState) : DashState :=
  if d.sock.phase = "segment_done" ∧ d.sock.segmentResult.isSome ∧ d.freshSegmentation then
    let prompt := promptChoice d.pendingPrompt
    { d with
      freshSegmentation := false
      pendingPrompt := none
      sock := sendQuery d.sock prompt
      autoQueries := d.autoQueries ++ [prompt] }
  else d

/-- The auto-trigger effect of DashboardPage: when the phase is connected
with an active session and the needs-segmentation one-shot flag set, clear
that flag, set the fresh-segmentation flag and trigger segmentation with
default options. -/
def effTriggerSegmentation (d : DashState) : DashState :=
  if d.sock.phase = "connected" ∧ d.activeSession.isSome ∧ d.needsSegmentation then
    { d with
      needsSegmentation := false
      freshSegmentation := true
      sock := triggerSegmentation d.sock {} }
  else d

/-- One pass over the DashboardPage effects after a committed state change.
The two guarded effects fire on disjoint phases (`segment_done` versus
`connected`) and neither firing re-enables the other (they move the phase to
parsing_query respectively segmenting, and only `effTriggerSegmentation`
sets `freshSegmentation` while only a session creation sets
`needsSegmentation`), so a single ordered pass reaches the React effect
fixpoint. -/
def runEffects (d : DashState) : DashState :=
  effTriggerSegmentation (effAutoQuery d)

/-- External events driving DashboardPage: session creation after a
successful upload (`handleCreateInteraction`), selecting a session from the
history sidebar (`handleSelectSession` up to its awaited fetches), the
completion of the out-of-band `getSegments` fetch for the selected session,
the socket callbacks, and a user chat submission (`handleSendMessage`). -/
inductive DashEvent where
  | createSession (sid : String) (modalPrompt : String)
  | selectSession (sid : String)
  | restoreSegments (segments : Option ResultData)
  | wsOpen
  | wsClosed (code : Nat)
  | wsMsg (now : Nat) (raw : RawMsg)
  | userQuery (text : String)
deriving DecidableEq, Repr

/-- The DashboardPage transition function. Each branch performs the state
updates of the corresponding handler or callback and then runs the effects
on the committed state.

`createSession`: `pendingPromptRef = modalPrompt || null`,
`needsSegmentationRef = true`, set the active session and connect.

`selectSession`: disconnect, set the active session, clear highlights, clear
the segment result, connect. Neither one-shot ref flag nor `expectingRef` is
touched.

`restoreSegments`: on a non-404 fetch result, store it and force the phase
to segment_done.

`userQuery`: ignored when there is no active session, the trimmed text is
empty, or a run is processing; otherwise send the trimmed text. -/
def dashStep (d : DashState) (e : DashEvent) : DashState :=
  match e with
  | .createSession sid modalPrompt =>
      runEffects
        { d with
          pendingPrompt := if modalPrompt = "" then none else some modalPrompt
          needsSegmentation := true
          activeSession := some sid
          sock := connect d.sock }
  | .selectSession sid =>
      runEffects
        { d with
          activeSession := some sid
          highlightIds := []
          sock := connect { disconnect d.sock with segmentResult := none } }
  | .restoreSegments segments =>
      match segments with
      | some r => runEffects { d with sock := { d.sock with segmentResult := some r, phase := "segment_done" } }
      | none => runEffects d
  | .wsOpen => runEffects { d with sock := handleOpen d.sock }
  | .wsClosed code => runEffects { d with sock := handleClose d.sock code }
  | .wsMsg now raw => runEffects { d with sock := handleMessage now d.sock raw }
  | .userQuery text =>
      if text.trim ≠ "" ∧ d.activeSession.isSome ∧ ¬ isProcessing d.sock.phase then
        runEffects { d with sock := sendQuery d.sock text.trim }
      else d

/-- Fold of `dashStep` over an event trace. -/
def dashSteps (d : DashState) (es : List DashEvent) : DashState :=
  es.foldl dashStep d

/-- Recognizer for inbound progress frames among dashboard events. -/
def isProgressEvent : DashEvent → Prop
  | .wsMsg _ (.valid (.progress _ _ _)) => True
  | _ => False

/-- Recognizer for session-creation events. -/
def isCreateEvent : DashEvent → Prop
  | .createSession _ _ => True
  | _ => False

/-- The dependency array `[surfaceMesh, segmentResult, highlightIds,
opacity]` of the MeshViewer render effect (the effect that performs the full
geometry and color rebuild, MeshViewer.tsx line 353). The three object-typed
entries are compared by reference identity, modelled with identity tokens;
`opacity` is a number compared by value. -/
structure RenderEffectDeps where
  surfaceMesh : Nat
  segmentResult : Nat
  highlightIds : Nat
  opacity : ℚ
deriving DecidableEq, Repr

/-- React re-runs an effect after a commit exactly when some entry of its
dependency array differs from the previous commit. -/
def effectReruns (old new : RenderEffectDeps) : Prop :=
  old ≠ new

/-- C1. Phase monotonicity: once the controller phase is segment_done or
query_done, an inbound connected acknowledgment leaves the phase unchanged;
the acknowledgment yields phase connected exactly from connecting or idle,
and a result phase of connected otherwise means the phase already was
connected. -/
theorem c1_phase_monotonic (s : SocketState) (sid : String) (now : Nat) :
    ((s.phase = "segment_done" ∨ s.phase = "query_done") →
      (handleMessage now s (RawMsg.valid (WsIncoming.connected sid))).phase = s.phase)
    ∧ ((s.phase = "connecting" ∨ s.phase = "idle") →
      (handleMessage now s (RawMsg.valid (WsIncoming.connected sid))).phase = "connected")
    ∧ ((handleMessage now s (RawMsg.valid (WsIncoming.connected sid))).phase = "connected" →
      s.phase ≠ "connected" →
      s.phase = "connecting" ∨ s.phase = "idle") := by
  refine ⟨?_, ?_, ?_⟩
  · intro h
    have hno : ¬ (s.phase = "connecting" ∨ s.phase = "idle") := by
      rcases h with h | h <;> rw [h] <;> decide
    simp only [handleMessage]
    rw [if_neg hno]
  · intro h
    simp only [handleMessage]
    rw [if_pos h]
  · intro h hne
    by_cases hc : s.phase = "connecting" ∨ s.phase = "idle"
    · exact hc
    · exfalso
      simp only [handleMessage] at h
      rw [if_neg hc] at h
      exact hne h

/-- Witness for c1_phase_monotonic at a concrete state. -/
theorem c1_phase_monotonic_witness :
    (handleMessage 0 { initialSocket with phase := "segment_done" }
      (RawMsg.valid (WsIncoming.connected "s"))).phase = "segment_done" :=
  (c1_phase_monotonic { initialSocket with phase := "segment_done" } "s" 0).1 (Or.inl rfl)

/-- C2. Result disambiguation: a result payload with an answer field is
classified as a query result (phase query_done) regardless of the
expectation flag; one without an answer field received while
expecting segment is classified as a segment result (phase segment_done);
in both cases the expectation flag is cleared. -/
theorem c2_result_disambiguation (s : SocketState) (now : Nat) (data : ResultData) :
    (hasAnswerField data = true →
      (handleMessage now s (RawMsg.valid (WsIncoming.result data))).phase = "query_done"
      ∧ (handleMessage now s (RawMsg.valid (WsIncoming.result data))).queryResult = some data
      ∧ (handleMessage now s (RawMsg.valid (WsIncoming.result data))).expecting = none)
    ∧ (hasAnswerField data = false → s.expecting = some Expecting.segment →
      (handleMessage now s (RawMsg.valid (WsIncoming.result data))).phase = "segment_done"
      ∧ (handleMessage now s (RawMsg.valid (WsIncoming.result data))).segmentResult = some data
      ∧ (handleMessage now s (RawMsg.valid (WsIncoming.result data))).expecting = none) := by
  constructor
  · intro h
    have hc : s.expecting = some Expecting.query ∨ hasAnswerField data := Or.inr (by rw [h])
    simp only [handleMessage]
    rw [if_pos hc]
    exact ⟨rfl, rfl, rfl⟩
  · intro h hseg
    have hc : ¬ (s.expecting = some Expecting.query ∨ hasAnswerField data) := by
      intro hc
      rcases hc with hc | hc
      · rw [hseg] at hc
        exact Expecting.noConfusion (Option.some.inj hc)
      · rw [h] at hc
        exact Bool.false_ne_true hc
    simp only [handleMessage]
    rw [if_neg hc]
    exact ⟨rfl, rfl, rfl⟩

/-- Witness for c2_result_disambiguation at concrete payloads. -/
theorem c2_result_disambiguation_witness :
    (handleMessage 0 { initialSocket with expecting := some Expecting.segment }
      (RawMsg.valid (WsIncoming.result (ResultData.queryRes "ok" [])))).phase = "query_done"
    ∧ (handleMessage 0 { initialSocket with expecting := some Expecting.segment }
      (RawMsg.valid (WsIncoming.result (ResultData.segRes [])))).phase = "segment_done" :=
  ⟨((c2_result_disambiguation { initialSocket with expecting := some Expecting.segment } 0
      (ResultData.queryRes "ok" [])).1 rfl).1,
   ((c2_result_disambiguation { initialSocket with expecting := some Expecting.segment } 0
      (ResultData.segRes [])).2 rfl rfl).1⟩

/-- C5 counterexample: a malformed (unparseable) inbound frame received in
phase connected leaves the phase at connected, not error, and surfaces no
message, refuting the claim that a parse failure moves the phase to error. -/
theorem c5_malformed_counterexample :
    (handleMessage 0 { initialSocket with phase := "connected" } RawMsg.malformed).phase = "connected"
    ∧ (handleMessage 0 { initialSocket with phase := "connected" } RawMsg.malformed).phase ≠ "error"
    ∧ (handleMessage 0 { initialSocket with phase := "connected" } RawMsg.malformed).error = none := by
  refine ⟨rfl, ?_, rfl⟩
  decide

/-- C5 amended: a malformed inbound frame is discarded unchanged (no phase
change, no surfaced message), while a server-reported error event moves the
phase to error and surfaces the servers message. -/
theorem c5_protocol_errors_amended (s : SocketState) (now : Nat) (m : String) :
    handleMessage now s RawMsg.malformed = s
    ∧ (handleMessage now s (RawMsg.valid (WsIncoming.error m))).phase = "error"
    ∧ (handleMessage now s (RawMsg.valid (WsIncoming.error m))).error = some m
    ∧ (handleMessage now s (RawMsg.valid (WsIncoming.error m))).progressText = "" :=
  ⟨rfl, rfl, rfl, rfl⟩

/-- C8 counterexample: a close with code 1006 (abnormal closure) from phase
connected surfaces no error message and leaves the phase unchanged, refuting
the claim that any non-4001 abnormal close surfaces a generic connectivity
error. -/
theorem c8_close_counterexample :
    (handleClose { initialSocket with phase := "connected", isConnected := true } 1006).error = none
    ∧ (handleClose { initialSocket with phase := "connected", isConnected := true } 1006).phase = "connected"
    ∧ (handleClose { initialSocket with phase := "connected", isConnected := true } 1006).phase ≠ "error" := by
  refine ⟨rfl, rfl, ?_⟩
  decide

/-- C8 amended: close code 4001 surfaces the re-authentication message and
moves the phase to error; a close with any other code only marks the
controller disconnected and changes nothing else; the generic connectivity
message is surfaced by the separate connection-error handler. -/
theorem c8_close_amended (s : SocketState) (code : Nat) :
    (code = 4001 →
      (handleClose s code).error = some "Authentication failed. Please sign in again."
      ∧ (handleClose s code).phase = "error"
      ∧ (handleClose s code).isConnected = false)
    ∧ (code ≠ 4001 →
      handleClose s code = { s with readyState := false, isConnected := false })
    ∧ (handleError s).error = some "WebSocket connection failed."
    ∧ (handleError s).phase = "error" := by
  refine ⟨?_, ?_, rfl, rfl⟩
  · intro h
    subst h
    exact ⟨rfl, rfl, rfl⟩
  · intro h
    simp only [handleClose]
    rw [if_neg h]

/-- Witness for c8_close_amended at concrete close codes. -/
theorem c8_close_amended_witness :
    (handleClose initialSocket 4001).phase = "error"
    ∧ handleClose initialSocket 1006 = { initialSocket with readyState := false, isConnected := false } :=
  ⟨((c8_close_amended initialSocket 4001).1 rfl).2.1,
   (c8_close_amended initialSocket 1006).2.1 (by decide)⟩

/-- C10. Progress events are unvalidated: every progress event appends
exactly one entry (step, detail, optional explanation, timestamp) to the
progress log and installs the step string verbatim as the current phase, for
any step string whatsoever; the closed PipelinePhase list is never
consulted (for instance, a string outside it is accepted just the same). -/
theorem c10_progress_unvalidated (s : SocketState) (now : Nat) (step : String)
    (detail : Detail) (explanation : Option String) :
    (handleMessage now s (RawMsg.valid (WsIncoming.progress step detail explanation))).progressLog
        = s.progressLog ++ [⟨step, detail, explanation, now⟩]
    ∧ (handleMessage now s (RawMsg.valid (WsIncoming.progress step detail explanation))).phase = step
    ∧ pipelinePhases.contains "totally_bogus_step" = false
    ∧ (handleMessage now s (RawMsg.valid (WsIncoming.progress "totally_bogus_step" detail explanation))).phase
        = "totally_bogus_step" :=
  ⟨rfl, rfl, by decide, rfl⟩

/-- C7 evaluation at the failing input: after a segmentation has been
triggered (expectation flag set to segment), disconnect closes and drops the
socket, marks the controller disconnected and resets the phase to idle, but
leaves the pending expectation flag set instead of clearing it. -/
theorem c7_disconnect_keeps_expecting :
    (disconnect (triggerSegmentation
        { initialSocket with wsPresent := true, readyState := true, phase := "connected" } {})).phase = "idle"
    ∧ (disconnect (triggerSegmentation
        { initialSocket with wsPresent := true, readyState := true, phase := "connected" } {})).wsPresent = false
    ∧ (disconnect (triggerSegmentation
        { initialSocket with wsPresent := true, readyState := true, phase := "connected" } {})).isConnected = false
    ∧ (disconnect (triggerSegmentation
        { initialSocket with wsPresent := true, readyState := true, phase := "connected" } {})).expecting
        = some Expecting.segment :=
  ⟨rfl, rfl, rfl, rfl⟩

/-- C4 evaluation at the failing input: with the mesh, segmentation result
and highlight set references unchanged, a change of the opacity value alone
makes the dependency array of the full-rebuild render effect differ, so the
full geometry and color rebuild re-runs, contradicting the claim that an
opacity change is only a property update on the existing surface object. -/
theorem c4_opacity_triggers_rebuild :
    effectReruns ⟨7, 8, 9, (2 : ℚ) / 5⟩ ⟨7, 8, 9, (1 : ℚ) / 2⟩
    ∧ (⟨7, 8, 9, (2 : ℚ) / 5⟩ : RenderEffectDeps).surfaceMesh
        = (⟨7, 8, 9, (1 : ℚ) / 2⟩ : RenderEffectDeps).surfaceMesh
    ∧ (⟨7, 8, 9, (2 : ℚ) / 5⟩ : RenderEffectDeps).segmentResult
        = (⟨7, 8, 9, (1 : ℚ) / 2⟩ : RenderEffectDeps).segmentResult
    ∧ (⟨7, 8, 9, (2 : ℚ) / 5⟩ : RenderEffectDeps).highlightIds
        = (⟨7, 8, 9, (1 : ℚ) / 2⟩ : RenderEffectDeps).highlightIds := by
  refine ⟨?_, rfl, rfl, rfl⟩
  intro h
  have := congrArg RenderEffectDeps.opacity h
  norm_num at this

/-- Value of the face color buffer after the per-face write loop of one
segment: a face gets the segment color exactly when it is listed and in
bounds, and is untouched otherwise. -/
theorem foldl_writeFace (nf : Nat) (c : Color) (fids : List Nat) (colors : Nat → Color) (F : Nat) :
    fids.foldl (writeFace nf c) colors F = if F ∈ fids ∧ F < nf then c else colors F := by
  induction fids generalizing colors with
  | nil => simp
  | cons a as ih =>
    rw [List.foldl_cons, ih]
    by_cases hEq : F = a
    · subst hEq
      by_cases hF : F < nf
      · simp [writeFace, hF]
      · simp [writeFace, hF]
    · have hwf : writeFace nf c colors a F = colors F := by
        unfold writeFace
        by_cases ha : a < nf
        · rw [if_pos ha]
          exact if_neg hEq
        · rw [if_neg ha]
      rw [hwf]
      by_cases hmem : F ∈ as
      · simp [hmem, hEq]
      · simp [hmem, hEq]

/-- Pointwise effect of one pass of the segment coloring loop. -/
theorem applySegment_eval (nf : Nat) (hl : List Int) (colors : Nat → Color) (seg : Segment) (F : Nat) :
    applySegment nf hl colors seg F
      = if coversFace seg F ∧ F < nf then segColor hl seg else colors F := by
  obtain ⟨sid, sty, fopt⟩ := seg
  cases fopt with
  | none => simp [applySegment, coversFace]
  | some fids =>
    by_cases hlen : fids.length > 0
    · simp only [applySegment, coversFace, Option.getD_some]
      rw [if_pos hlen, foldl_writeFace]
    · have h0 : fids = [] := by
        cases fids with
        | nil => rfl
        | cons x xs => exact absurd (by simp) hlen
      subst h0
      simp [applySegment, coversFace]

/-- Segments that do not cover a face leave its color untouched. -/
theorem foldl_applySegment_no_cover (nf : Nat) (hl : List Int) (F : Nat) (segs : List Segment)
    (colors : Nat → Color) (h : ∀ s ∈ segs, ¬ coversFace s F) :
    segs.foldl (applySegment nf hl) colors F = colors F := by
  induction segs generalizing colors with
  | nil => rfl
  | cons a as ih =>
    rw [List.foldl_cons, ih _ (fun s hs => h s (List.mem_cons_of_mem a hs)), applySegment_eval,
      if_neg (fun hc => h a (List.mem_cons_self a as) hc.1)]

/-- Out-of-bounds face indices are never written. -/
theorem foldl_applySegment_oob (nf : Nat) (hl : List Int) (F : Nat) (hF : nf ≤ F)
    (segs : List Segment) (colors : Nat → Color) :
    segs.foldl (applySegment nf hl) colors F = colors F := by
  induction segs generalizing colors with
  | nil => rfl
  | cons a as ih =>
    rw [List.foldl_cons, ih, applySegment_eval, if_neg]
    intro hc
    exact absurd hc.2 (Nat.not_lt.mpr hF)

/-- One segment pass is invariant under color-rule preserving changes of the
highlight set and pointwise equal input buffers. -/
theorem applySegment_congr (nf : Nat) (hl₁ hl₂ : List Int) (c₁ c₂ : Nat → Color) (s : Segment)
    (hc : segColor hl₁ s = segColor hl₂ s) (hcol : ∀ i, c₁ i = c₂ i) (G : Nat) :
    applySegment nf hl₁ c₁ s G = applySegment nf hl₂ c₂ s G := by
  rw [applySegment_eval, applySegment_eval, hc, hcol G]

/-- The whole coloring loop is invariant under color-rule preserving changes
of the highlight set. -/
theorem foldl_applySegment_congr (nf : Nat) (hl₁ hl₂ : List Int) (segs : List Segment)
    (hseg : ∀ s ∈ segs, segColor hl₁ s = segColor hl₂ s) :
    ∀ (c₁ c₂ : Nat → Color), (∀ i, c₁ i = c₂ i) → ∀ G,
      segs.foldl (applySegment nf hl₁) c₁ G = segs.foldl (applySegment nf hl₂) c₂ G := by
  induction segs with
  | nil => intro c₁ c₂ h G; exact h G
  | cons a as ih =>
    intro c₁ c₂ h G
    rw [List.foldl_cons, List.foldl_cons]
    exact ih (fun s hs => hseg s (List.mem_cons_of_mem a hs)) _ _
      (applySegment_congr nf hl₁ hl₂ c₁ c₂ a (hseg a (List.mem_cons_self a as)) h) G

/-- A highlight id that is no segments id does not change that segments
color. -/
theorem segColor_cons_notin (h : Int) (hl : List Int) (s : Segment) (hs : s.segment_id ≠ h) :
    segColor (h :: hl) s = segColor hl s := by
  unfold segColor
  by_cases hmem : s.segment_id ∈ hl
  · rw [if_pos (List.mem_cons_of_mem h hmem), if_pos hmem]
  · rw [if_neg, if_neg hmem]
    intro hc
    rcases List.mem_cons.mp hc with hc | hc
    · exact hs hc
    · exact hmem hc

/-- C6. Face color last-write-wins: when two segments both list face F (F in
bounds) and no later segment lists it, F ends with the color of the later of
the two, and that color is the highlight color when the segments id is
highlighted, otherwise the type-table color with the neutral default for
unrecognized types. -/
theorem c6_last_write_wins (nf : Nat) (hl : List Int) (pre mid post : List Segment)
    (s1 s2 : Segment) (F : Nat) (hF : F < nf)
    (h1 : coversFace s1 F) (h2 : coversFace s2 F)
    (hpost : ∀ s ∈ post, ¬ coversFace s F) :
    buildFaceColors nf hl (pre ++ s1 :: (mid ++ s2 :: post)) F = segColor hl s2
    ∧ segColor hl s2
        = (if s2.segment_id ∈ hl then HIGHLIGHT_COLOR
           else (SEGMENT_COLORS s2.type).getD DEFAULT_MESH_COLOR) := by
  constructor
  · unfold buildFaceColors
    rw [List.foldl_append, List.foldl_cons, List.foldl_append, List.foldl_cons,
      foldl_applySegment_no_cover nf hl F post _ hpost, applySegment_eval,
      if_pos ⟨h2, hF⟩]
  · rfl

/-- Witness for c6_last_write_wins: two overlapping segments on a three-face
mesh; the shared face takes the arc color of the later segment. -/
theorem c6_last_write_wins_witness :
    buildFaceColors 3 [] [⟨1, "straight", some [0, 1]⟩, ⟨2, "arc", some [1, 2]⟩] 1
      = Color.mk 242 140 90 :=
  ((c6_last_write_wins 3 [] [] [] [] ⟨1, "straight", some [0, 1]⟩ ⟨2, "arc", some [1, 2]⟩ 1
      (by decide) (by decide) (by decide) (by simp)).1).trans (by decide)

/-- C9. Face-index bounds safety: a face index at or beyond the face count
is skipped by the coloring loop (the buffer is only ever written in
bounds), and a highlight id that belongs to no segment changes nothing in
the produced colors. -/
theorem c9_bounds_and_unknown_highlight (nf : Nat) (h : Int) (hl : List Int)
    (segs : List Segment) (F : Nat) :
    (nf ≤ F → buildFaceColors nf hl segs F = DEFAULT_MESH_COLOR)
    ∧ ((∀ s ∈ segs, s.segment_id ≠ h) →
      ∀ G, buildFaceColors nf (h :: hl) segs G = buildFaceColors nf hl segs G) := by
  constructor
  · intro hF
    exact foldl_applySegment_oob nf hl F hF segs _
  · intro hid G
    exact foldl_applySegment_congr nf (h :: hl) hl segs
      (fun s hs => segColor_cons_notin h hl s (hid s hs)) _ _ (fun _ => rfl) G

/-- Witness for c9_bounds_and_unknown_highlight: an out-of-range face id (5
on a two-face mesh) colors nothing, and highlight id 9, unknown to the only
segment, changes nothing. -/
theorem c9_bounds_and_unknown_highlight_witness :
    buildFaceColors 2 [] [⟨1, "straight", some [0, 5]⟩] 5 = DEFAULT_MESH_COLOR
    ∧ buildFaceColors 2 ([9] : List Int) [⟨1, "straight", some [0, 5]⟩] 0
        = buildFaceColors 2 [] [⟨1, "straight", some [0, 5]⟩] 0 :=
  ⟨(c9_bounds_and_unknown_highlight 2 9 [] [⟨1, "straight", some [0, 5]⟩] 5).1 (by decide),
   (c9_bounds_and_unknown_highlight 2 9 [] [⟨1, "straight", some [0, 5]⟩] 0).2 (by decide) 0⟩

/-- The automatic query effect does not fire while its one-shot flag is
clear. -/
theorem effAutoQuery_id_nofresh (d : DashState) (h : d.freshSegmentation = false) :
    effAutoQuery d = d := by
  simp [effAutoQuery, h]

/-- The automatic query effect does not fire without a segment result. -/
theorem effAutoQuery_id_noseg (d : DashState) (h : d.sock.segmentResult = none) :
    effAutoQuery d = d := by
  simp [effAutoQuery, h]

/-- The auto-trigger effect does not fire while its one-shot flag is clear. -/
theorem effTriggerSegmentation_id (d : DashState) (h : d.needsSegmentation = false) :
    effTriggerSegmentation d = d := by
  simp [effTriggerSegmentation, h]

/-- With both one-shot flags clear, the effect pass is the identity. -/
theorem runEffects_id (d : DashState) (h1 : d.needsSegmentation = false)
    (h2 : d.freshSegmentation = false) :
    runEffects d = d := by
  rw [runEffects, effAutoQuery_id_nofresh d h2, effTriggerSegmentation_id d h1]

/-- Field form of runEffects_id. -/
theorem runEffects_fields (d : DashState) (h1 : d.needsSegmentation = false)
    (h2 : d.freshSegmentation = false) :
    (runEffects d).needsSegmentation = false
    ∧ (runEffects d).freshSegmentation = false
    ∧ (runEffects d).autoQueries = d.autoQueries := by
  rw [runEffects_id d h1 h2]
  exact ⟨h1, h2, rfl⟩

/-- With both one-shot flags clear, no dashboard event other than a session
creation can set a flag or append an automatic query. -/
theorem dashStep_no_auto (d : DashState) (e : DashEvent)
    (h1 : d.needsSegmentation = false) (h2 : d.freshSegmentation = false)
    (hne : ¬ isCreateEvent e) :
    (dashStep d e).needsSegmentation = false
    ∧ (dashStep d e).freshSegmentation = false
    ∧ (dashStep d e).autoQueries = d.autoQueries := by
  cases e with
  | createSession sid p => exact absurd trivial hne
  | selectSession sid => exact runEffects_fields _ h1 h2
  | restoreSegments segs =>
    cases segs with
    | some r => exact runEffects_fields _ h1 h2
    | none => exact runEffects_fields _ h1 h2
  | wsOpen => exact runEffects_fields _ h1 h2
  | wsClosed code => exact runEffects_fields _ h1 h2
  | wsMsg now raw => exact runEffects_fields _ h1 h2
  | userQuery t =>
    simp only [dashStep]
    split
    · exact runEffects_fields _ h1 h2
    · exact ⟨h1, h2, rfl⟩

/-- Trace form of dashStep_no_auto. -/
theorem dashSteps_no_auto :
    ∀ (es : List DashEvent) (d : DashState),
      d.needsSegmentation = false → d.freshSegmentation = false →
      (∀ e ∈ es, ¬ isCreateEvent e) →
      (dashSteps d es).needsSegmentation = false
      ∧ (dashSteps d es).freshSegmentation = false
      ∧ (dashSteps d es).autoQueries = d.autoQueries := by
  intro es
  induction es with
  | nil => intro d h1 h2 _; exact ⟨h1, h2, rfl⟩
  | cons e es ih =>
    intro d h1 h2 hne
    obtain ⟨g1, g2, g3⟩ := dashStep_no_auto d e h1 h2 (hne e (List.mem_cons_self e es))
    obtain ⟨t1, t2, t3⟩ := ih (dashStep d e) g1 g2 (fun x hx => hne x (List.mem_cons_of_mem e hx))
    exact ⟨t1, t2, t3.trans g3⟩

/-- Invariant holding while a freshly triggered segmentation is in flight:
segmentation already triggered (so the needs-segmentation flag is spent and
the fresh-segmentation flag is set), no segment result yet, no automatic
query yet, the socket open, the pending prompt untouched, and the
expectation flag at segment. -/
def MidFlight (d : DashState) (pp : Option String) : Prop :=
  d.needsSegmentation = false
  ∧ d.freshSegmentation = true
  ∧ d.sock.segmentResult = none
  ∧ d.autoQueries = []
  ∧ d.sock.wsPresent = true
  ∧ d.sock.readyState = true
  ∧ d.pendingPrompt = pp
  ∧ d.sock.expecting = some Expecting.segment

/-- Progress events preserve the in-flight invariant. -/
theorem midflight_progress (d : DashState) (pp : Option String) (now : Nat)
    (st : String) (dt : Detail) (ex : Option String) (hP : MidFlight d pp) :
    MidFlight (dashStep d (DashEvent.wsMsg now (RawMsg.valid (WsIncoming.progress st dt ex)))) pp := by
  obtain ⟨p1, p2, p3, p4, p5, p6, p7, p8⟩ := hP
  simp [MidFlight, dashStep, runEffects, effAutoQuery, effTriggerSegmentation, handleMessage,
    p1, p2, p3, p4, p5, p6, p7, p8]

/-- The in-flight invariant survives any all-progress event segment. -/
theorem midflight_trace (pp : Option String) :
    ∀ (evs : List DashEvent), (∀ e ∈ evs, isProgressEvent e) →
      ∀ d, MidFlight d pp → MidFlight (dashSteps d evs) pp := by
  intro evs
  induction evs with
  | nil => intro _ d h; exact h
  | cons e es ih =>
    intro hevs d h
    have he := hevs e (List.mem_cons_self e es)
    have htail : ∀ x ∈ es, isProgressEvent x := fun x hx => hevs x (List.mem_cons_of_mem e hx)
    cases e with
    | wsMsg now raw =>
      cases raw with
      | malformed => exact he.elim
      | valid m =>
        cases m with
        | progress st dt ex => exact ih htail _ (midflight_progress d pp now st dt ex h)
        | connected s => exact he.elim
        | result r => exact he.elim
        | error msg => exact he.elim
        | other t => exact he.elim
    | createSession a b => exact he.elim
    | selectSession a => exact he.elim
    | restoreSegments sgs => exact he.elim
    | wsOpen => exact he.elim
    | wsClosed c => exact he.elim
    | userQuery t => exact he.elim

/-- From the in-flight invariant, a terminal answerless result event
produces exactly one automatic query, with the documented prompt choice. -/
theorem midflight_result_fires (d : DashState) (pp : Option String) (now : Nat)
    (segs : List Segment) (hP : MidFlight d pp) :
    (dashStep d (DashEvent.wsMsg now
      (RawMsg.valid (WsIncoming.result (ResultData.segRes segs))))).autoQueries
      = [promptChoice pp] := by
  obtain ⟨p1, p2, p3, p4, p5, p6, p7, p8⟩ := hP
  simp [dashStep, runEffects, effAutoQuery, effTriggerSegmentation, handleMessage,
    hasAnswerField, sendQuery, p1, p2, p3, p4, p5, p6, p7, p8]

/-- Creating a session, opening the socket and receiving the connected
acknowledgment puts the dashboard in the in-flight state with the pending
prompt recorded from the modal. -/
theorem fresh_setup (sid p : String) :
    MidFlight (dashSteps initialDash
      [DashEvent.createSession sid p, DashEvent.wsOpen,
       DashEvent.wsMsg 0 (RawMsg.valid (WsIncoming.connected sid))])
      (if p = "" then none else some p) := by
  refine ⟨rfl, rfl, rfl, rfl, rfl, rfl, rfl, rfl⟩

/-- C3 amended. First, for a freshly created session, exactly one automatic
query is sent once the terminal segmentation result arrives (the trimmed
initial prompt when nonblank, otherwise "describe this geometry"). Second,
a restored session sends zero automatic queries provided the one-shot
fresh-segmentation flag is clear when restoring; the flag is not cleared on
session switch, so a switch during a pending fresh segmentation can leak
one automatic query into the restored session (see the counterexample). -/
theorem c3_auto_query_amended :
    (∀ (sid p : String) (evs : List DashEvent) (now : Nat) (segs : List Segment),
      (∀ e ∈ evs, isProgressEvent e) →
      (dashSteps initialDash
          ([DashEvent.createSession sid p, DashEvent.wsOpen,
            DashEvent.wsMsg 0 (RawMsg.valid (WsIncoming.connected sid))]
            ++ evs
            ++ [DashEvent.wsMsg now (RawMsg.valid (WsIncoming.result (ResultData.segRes segs)))])).autoQueries
        = [promptChoice (if p = "" then none else some p)])
    ∧ (∀ (d : DashState) (es : List DashEvent),
      d.needsSegmentation = false → d.freshSegmentation = false →
      (∀ e ∈ es, ¬ isCreateEvent e) →
      (dashSteps d es).autoQueries = d.autoQueries) := by
  constructor
  · intro sid p evs now segs hevs
    have hmid := midflight_trace (if p = "" then none else some p) evs hevs _ (fresh_setup sid p)
    have hsplit : dashSteps initialDash
        ([DashEvent.createSession sid p, DashEvent.wsOpen,
          DashEvent.wsMsg 0 (RawMsg.valid (WsIncoming.connected sid))]
          ++ evs
          ++ [DashEvent.wsMsg now (RawMsg.valid (WsIncoming.result (ResultData.segRes segs)))])
        = dashStep (dashSteps (dashSteps initialDash
            [DashEvent.createSession sid p, DashEvent.wsOpen,
             DashEvent.wsMsg 0 (RawMsg.valid (WsIncoming.connected sid))]) evs)
          (DashEvent.wsMsg now (RawMsg.valid (WsIncoming.result (ResultData.segRes segs)))) := by
      simp only [dashSteps]
      rw [List.foldl_append, List.foldl_append]
      rfl
    rw [hsplit]
    exact midflight_result_fires _ _ now segs hmid
  · intro d es h1 h2 hne
    exact (dashSteps_no_auto es d h1 h2 hne).2.2

/-- Witness for c3_auto_query_amended: a concrete fresh run yields exactly
the default automatic query, and a concrete restored run from a clean
controller yields none. -/
theorem c3_auto_query_amended_witness :
    (dashSteps initialDash
      [DashEvent.createSession "s" "", DashEvent.wsOpen,
       DashEvent.wsMsg 0 (RawMsg.valid (WsIncoming.connected "s")),
       DashEvent.wsMsg 1 (RawMsg.valid (WsIncoming.progress "segmenting" {} none)),
       DashEvent.wsMsg 2 (RawMsg.valid (WsIncoming.result (ResultData.segRes [])))]).autoQueries
      = ["describe this geometry"]
    ∧ (dashSteps initialDash
      [DashEvent.selectSession "b", DashEvent.wsOpen,
       DashEvent.restoreSegments (some (ResultData.segRes []))]).autoQueries = [] := by
  constructor
  · exact c3_auto_query_amended.1 "s" ""
      [DashEvent.wsMsg 1 (RawMsg.valid (WsIncoming.progress "segmenting" {} none))] 2 []
      (by intro e he
          simp only [List.mem_cons, List.not_mem_nil, or_false] at he
          subst he
          trivial)
  · exact c3_auto_query_amended.2 initialDash
      [DashEvent.selectSession "b", DashEvent.wsOpen,
       DashEvent.restoreSegments (some (ResultData.segRes []))] rfl rfl
      (by intro e he
          simp only [List.mem_cons, List.not_mem_nil, or_false] at he
          rcases he with rfl | rfl | rfl <;> exact not_false)

/-- C3 counterexample: switching to a second session while a fresh
segmentation for the first session is still in flight leaves the one-shot
fresh-segmentation flag set, so when the second sessions segments are
restored via the fetch path (segmentation never triggered for it), the
dashboard sends one automatic query: the restore itself produces the query,
refuting the claim that a restored session is never auto-queried. -/
theorem c3_restored_counterexample :
    ((dashSteps initialDash
        [DashEvent.createSession "a" "", DashEvent.wsOpen,
         DashEvent.wsMsg 0 (RawMsg.valid (WsIncoming.connected "a")),
         DashEvent.selectSession "b", DashEvent.wsOpen]).autoQueries = []
      ∧ (dashSteps initialDash
        [DashEvent.createSession "a" "", DashEvent.wsOpen,
         DashEvent.wsMsg 0 (RawMsg.valid (WsIncoming.connected "a")),
         DashEvent.selectSession "b", DashEvent.wsOpen,
         DashEvent.restoreSegments (some (ResultData.segRes []))]).autoQueries
        = ["describe this geometry"]
      ∧ (dashSteps initialDash
        [DashEvent.createSession "a" "", DashEvent.wsOpen,
         DashEvent.wsMsg 0 (RawMsg.valid (WsIncoming.connected "a")),
         DashEvent.selectSession "b", DashEvent.wsOpen,
         DashEvent.restoreSegments (some (ResultData.segRes []))]).sock.sent
        = [OutMsg.uploadAndSegment 1 16 true, OutMsg.query "describe this geometry"]) :=
  ⟨rfl, rfl, rfl⟩

end ShapeFrontend
